import Mathlib

set_option maxRecDepth 1000000

/-!
Verification development for the Anki Audio Generator repository.

The repository has two pipeline variants:
  - src/app.py: the "derive a new audio practice deck" variant
    (Flask app; process_deck builds a fresh genanki deck), and
  - src/api/process.py: the "augment the existing deck in place" variant
    (process_deck rewrites the notes table and rezips the archive).

The shallow embedding below translates the text-processing helpers and the
per-note / per-field processing logic of both variants into executable Lean
functions.  External collaborators (the lingua language detector, the
Supabase cache store, the ElevenLabs synthesis provider, the filesystem)
are passed in as function-valued parameters; everything the repository
itself computes is translated directly from the source.

Known slips in the source, modelled or documented where relevant:
  - app.py line 229 contains a malformed formatted-string call
    (a space between the string prefix and the quote), which is a parse
    error for the module; the model treats that print statement as a no-op
    and keeps the runtime semantics of the surrounding statements.
  - app.py analyze_deck never initialises the local native_text, so the
    per-note analysis reads an unbound local (lines 217 and 226).
  - app.py process_deck (line 262) prints len(cards_data) where cards_data
    is a local that is never assigned, so the function as written raises
    NameError on entry; the duplicated preamble (lines 259-300) is dead
    code and the models named *_body below cover the executable body
    (lines 302-442) that the preamble shadows.
  - api/process.py imports the misspelled module genkanki (line 7) and
    refers to Language.NORWEGIAN (line 53), which the lingua package does
    not define, so the module cannot be imported; process_deck calls
    tempfile.TemporaryDirector (line 136), which does not exist, and uses
    zipfile without importing it.
  - api/process.py get_cached_audio calls storage.download_ (line 86), a
    misspelled attribute, and generate_audio_elevenlabs joins the
    misspelled name audio_generator (line 123); both failures happen
    inside try/except blocks and degrade to None.
-/

namespace AnkiAudio

/-- Audio bytes, as produced by the synthesis provider or the cache store. -/
abbrev Blob := List Nat

/-- Errors raised by the external Supabase store (transport or storage). -/
inductive StoreErr
  | transport
deriving DecidableEq

/-- Errors raised by the external ElevenLabs synthesis provider. -/
inductive SynthErr
  | provider
deriving DecidableEq

/-- Python exceptions that escape the modelled code. -/
inductive PyErr
  | valueError (msg : String)
  | nameError (name : String)
  | attributeError (name : String)
  | unboundLocalError (name : String)
deriving DecidableEq

/-- Python str.strip default whitespace characters (ASCII subset, which is
all the modelled strings use). -/
def pyWs (c : Char) : Bool :=
  c == ' ' || c == '\t' || c == '\n' || c == '\r' || c == '\x0b' || c == '\x0c'

/-- Python text.strip(): drop leading and trailing whitespace. -/
def pyStrip (s : String) : String :=
  ⟨((s.data.dropWhile pyWs).reverse.dropWhile pyWs).reverse⟩

/-- Scanner for the closing part of the markup regex <[^<]+?> used in
app.py line 70/195/371 and api/process.py line 62/174: after the opening
angle bracket and its first character, the match closes at the first
closing angle bracket, and fails if another opening bracket comes first. -/
def scanGt : List Char → Option (List Char)
  | [] => none
  | c :: rest =>
    if c = '>' then some rest
    else if c = '<' then none
    else scanGt rest

/-- Attempt to match [^<]+?> right after an opening angle bracket:
the first character must not be another opening bracket, then scanGt
finds the minimal closing bracket at offset at least two. -/
def tryTag : List Char → Option (List Char)
  | [] => none
  | c0 :: rest => if c0 = '<' then none else scanGt rest

/-- Fuel-driven worker for the markup-stripping substitution.  The fuel
is structural so that the definition reduces inside the kernel; stripTags
supplies the list length as fuel, which tryTag_length shows is always
sufficient, so the fuel-exhausted branch is unreachable. -/
def stripTagsAux : Nat → List Char → List Char
  | 0, _ => []
  | _ + 1, [] => []
  | fuel + 1, c :: rest =>
    if c = '<' then
      match tryTag rest with
      | some rem => stripTagsAux fuel rem
      | none => c :: stripTagsAux fuel rest
    else c :: stripTagsAux fuel rest

/-- re.sub of the pattern <[^<]+?> by the empty string: repeatedly remove
minimal angle-bracket tags, scanning left to right. -/
def stripTags (l : List Char) : List Char := stripTagsAux l.length l

/-- String-level wrapper for the markup-stripping substitution. -/
def stripTagsStr (s : String) : String := ⟨stripTags s.data⟩

/-- Membership scan for one candidate position of the audio-marker regex
from api/process.py line 73: after the literal marker opening, at least
one character that is not a closing square bracket, then a closing square
bracket. -/
def soundAt (l : List Char) : Bool :=
  match l with
  | '[' :: 's' :: 'o' :: 'u' :: 'n' :: 'd' :: ':' :: c :: rest =>
    c != ']' && rest.contains ']'
  | _ => false

/-- re.search over every position of the string. -/
def soundSearch : List Char → Bool
  | [] => false
  | c :: rest => soundAt (c :: rest) || soundSearch rest

/-- api/process.py has_audio_tag (lines 70-73): detect an existing
audio-reference marker in a raw field. -/
def has_audio_tag (text : String) : Bool := soundSearch text.data

namespace MD5

/-- Modulus for 32-bit arithmetic. -/
def M32 : Nat := 4294967296

/-- Left rotation of a 32-bit word.  For x below the modulus the shifted
low part and the wrapped high part occupy disjoint bit ranges, so plain
addition agrees with the bitwise or. -/
def rotl32 (x s : Nat) : Nat := (x * 2 ^ s + x / 2 ^ (32 - s)) % M32

/-- The 64 sine-derived round constants of MD5. -/
def K : List Nat :=
  [0xd76aa478, 0xe8c7b756, 0x242070db, 0xc1bdceee,
   0xf57c0faf, 0x4787c62a, 0xa8304613, 0xfd469501,
   0x698098d8, 0x8b44f7af, 0xffff5bb1, 0x895cd7be,
   0x6b901122, 0xfd987193, 0xa679438e, 0x49b40821,
   0xf61e2562, 0xc040b340, 0x265e5a51, 0xe9b6c7aa,
   0xd62f105d, 0x02441453, 0xd8a1e681, 0xe7d3fbc8,
   0x21e1cde6, 0xc33707d6, 0xf4d50d87, 0x455a14ed,
   0xa9e3e905, 0xfcefa3f8, 0x676f02d9, 0x8d2a4c8a,
   0xfffa3942, 0x8771f681, 0x6d9d6122, 0xfde5380c,
   0xa4beea44, 0x4bdecfa9, 0xf6bb4b60, 0xbebfbc70,
   0x289b7ec6, 0xeaa127fa, 0xd4ef3085, 0x04881d05,
   0xd9d4d039, 0xe6db99e5, 0x1fa27cf8, 0xc4ac5665,
   0xf4292244, 0x432aff97, 0xab9423a7, 0xfc93a039,
   0x655b59c3, 0x8f0ccc92, 0xffeff47d, 0x85845dd1,
   0x6fa87e4f, 0xfe2ce6e0, 0xa3014314, 0x4e0811a1,
   0xf7537e82, 0xbd3af235, 0x2ad7d2bb, 0xeb86d391]

/-- The per-round left-rotation amounts of MD5. -/
def S : List Nat :=
  [7, 12, 17, 22, 7, 12, 17, 22, 7, 12, 17, 22, 7, 12, 17, 22,
   5, 9, 14, 20, 5, 9, 14, 20, 5, 9, 14, 20, 5, 9, 14, 20,
   4, 11, 16, 23, 4, 11, 16, 23, 4, 11, 16, 23, 4, 11, 16, 23,
   6, 10, 15, 21, 6, 10, 15, 21, 6, 10, 15, 21, 6, 10, 15, 21]

/-- MD5 padding: append the 0x80 byte, zero bytes up to 56 modulo 64,
then the original length in bits as eight little-endian bytes. -/
def padMessage (msg : List Nat) : List Nat :=
  let lenBits := msg.length * 8
  let zeros := (119 - msg.length % 64) % 64
  msg ++ [0x80] ++ List.replicate zeros 0 ++
    (List.range 8).map (fun i => lenBits / 2 ^ (8 * i) % 256)

/-- Fuel-driven worker splitting a byte list into 64-byte chunks; the
fuel is structural so the definition reduces inside the kernel, and the
list length is always sufficient fuel because every step drops at least
one element from a nonempty list. -/
def chunks64Aux : Nat → List Nat → List (List Nat)
  | 0, _ => []
  | _ + 1, [] => []
  | fuel + 1, c :: rest => ((c :: rest).take 64) :: chunks64Aux fuel ((c :: rest).drop 64)

/-- Split the padded message into 64-byte chunks. -/
def chunks64 (l : List Nat) : List (List Nat) := chunks64Aux l.length l

/-- Little-endian 32-bit word g of a chunk. -/
def word (chunk : List Nat) (g : Nat) : Nat :=
  chunk.getD (4 * g) 0 + 256 * chunk.getD (4 * g + 1) 0 +
    65536 * chunk.getD (4 * g + 2) 0 + 16777216 * chunk.getD (4 * g + 3) 0

/-- One of the 64 MD5 operations on the running state (a, b, c, d). -/
def md5Round (chunk : List Nat) (st : Nat × Nat × Nat × Nat) (i : Nat) :
    Nat × Nat × Nat × Nat :=
  let a := st.1
  let b := st.2.1
  let c := st.2.2.1
  let d := st.2.2.2
  let fg : Nat × Nat :=
    if i < 16 then ((b &&& c) ||| ((b ^^^ 4294967295) &&& d), i)
    else if i < 32 then ((d &&& b) ||| ((d ^^^ 4294967295) &&& c), (5 * i + 1) % 16)
    else if i < 48 then (b ^^^ c ^^^ d, (3 * i + 5) % 16)
    else (c ^^^ (b ||| (d ^^^ 4294967295)), (7 * i) % 16)
  let tmp := (fg.1 + a + K.getD i 0 + word chunk fg.2) % M32
  (d, (b + rotl32 tmp (S.getD i 0)) % M32, b, c)

/-- Process one 64-byte chunk: 64 rounds, then add into the running
digest words. -/
def md5Chunk (st : Nat × Nat × Nat × Nat) (chunk : List Nat) :
    Nat × Nat × Nat × Nat :=
  let r := (List.range 64).foldl (md5Round chunk) st
  ((st.1 + r.1) % M32, (st.2.1 + r.2.1) % M32,
   (st.2.2.1 + r.2.2.1) % M32, (st.2.2.2 + r.2.2.2) % M32)

/-- Lowercase hexadecimal digit. -/
def hexDigit (n : Nat) : Char :=
  if n < 10 then Char.ofNat (48 + n) else Char.ofNat (87 + n)

/-- Two hex digits of one byte. -/
def byteHex (b : Nat) : List Char := [hexDigit (b / 16), hexDigit (b % 16)]

/-- Hex rendering of a 32-bit word, least significant byte first. -/
def wordLEHex (w : Nat) : List Char :=
  byteHex (w % 256) ++ byteHex (w / 256 % 256) ++
    byteHex (w / 65536 % 256) ++ byteHex (w / 16777216 % 256)

/-- MD5 digest of a byte list, rendered as 32 lowercase hex characters,
exactly as hashlib.md5(...).hexdigest() renders it. -/
def md5Hex (msg : List Nat) : String :=
  let st := (chunks64 (padMessage msg)).foldl md5Chunk
    (0x67452301, 0xefcdab89, 0x98badcfe, 0x10325476)
  ⟨wordLEHex st.1 ++ wordLEHex st.2.1 ++ wordLEHex st.2.2.1 ++ wordLEHex st.2.2.2⟩

end MD5

/-- UTF-8 encoding of one character, as text.encode in Python produces it. -/
def utf8Bytes (c : Char) : List Nat :=
  let n := c.toNat
  if n < 128 then [n]
  else if n < 2048 then [192 + n / 64, 128 + n % 64]
  else if n < 65536 then [224 + n / 4096, 128 + n / 64 % 64, 128 + n % 64]
  else [240 + n / 262144, 128 + n / 4096 % 64, 128 + n / 64 % 64, 128 + n % 64]

/-- UTF-8 bytes of a whole string. -/
def strUTF8 (s : String) : List Nat := s.data.flatMap utf8Bytes

/-- app.py generate_audio_hash (lines 78-80) and api/process.py
generate_audio_hash (lines 75-77): the MD5 hex digest of the UTF-8 bytes
of the text.  The text is the only input; no language code is hashed. -/
def generate_audio_hash (text : String) : String := MD5.md5Hex (strUTF8 text)

/-- The cache key the pipelines compute for a card whose foreign text is
given, while a target language code is in scope (app.py line 391,
api/process.py line 177): the key is generate_audio_hash of the text and
the language argument is ignored. -/
def cardCacheKey (text : String) (_language : String) : String :=
  generate_audio_hash text

/-- Lingua detector labels are modelled as the upper-case enum value
names of the lingua Language class.  The external detector is passed in
as a function from detection-ready text to an optional label. -/
abbrev Detector := String → Option String

/-- app.py LANGUAGE_MAP (lines 30-63): code-to-label table of the derive
variant; note the code no maps to BOKMAL. -/
def LANGUAGE_MAP_app : List (String × String) :=
  [("en", "ENGLISH"), ("es", "SPANISH"), ("fr", "FRENCH"), ("pt", "PORTUGUESE"),
   ("ar", "ARABIC"), ("ja", "JAPANESE"), ("zh", "CHINESE"), ("de", "GERMAN"),
   ("hi", "HINDI"), ("ko", "KOREAN"), ("it", "ITALIAN"), ("id", "INDONESIAN"),
   ("nl", "DUTCH"), ("tr", "TURKISH"), ("fil", "TAGALOG"), ("pl", "POLISH"),
   ("sv", "SWEDISH"), ("bg", "BULGARIAN"), ("ro", "ROMANIAN"), ("cs", "CZECH"),
   ("el", "GREEK"), ("fi", "FINNISH"), ("hr", "CROATIAN"), ("ms", "MALAY"),
   ("sk", "SLOVAK"), ("da", "DANISH"), ("ta", "TAMIL"), ("uk", "UKRAINIAN"),
   ("ru", "RUSSIAN"), ("hu", "HUNGARIAN"), ("no", "BOKMAL"), ("vi", "VIETNAMESE")]

/-- api/process.py LANGUAGE_MAP (lines 23-55), transcribed as written:
en-US instead of en, no ta entry, and no maps to NORWEGIAN even though
the lingua package defines no such enum value (the module therefore
fails at import time; see the file header). -/
def LANGUAGE_MAP_api : List (String × String) :=
  [("en-US", "ENGLISH"), ("es", "SPANISH"), ("fr", "FRENCH"), ("pt", "PORTUGUESE"),
   ("ar", "ARABIC"), ("ja", "JAPANESE"), ("zh", "CHINESE"), ("de", "GERMAN"),
   ("hi", "HINDI"), ("ko", "KOREAN"), ("it", "ITALIAN"), ("id", "INDONESIAN"),
   ("nl", "DUTCH"), ("tr", "TURKISH"), ("fil", "TAGALOG"), ("pl", "POLISH"),
   ("sv", "SWEDISH"), ("bg", "BULGARIAN"), ("ro", "ROMANIAN"), ("cs", "CZECH"),
   ("el", "GREEK"), ("fi", "FINNISH"), ("hr", "CROATIAN"), ("ms", "MALAY"),
   ("sk", "SLOVAK"), ("da", "DANISH"), ("uk", "UKRAINIAN"), ("ru", "RUSSIAN"),
   ("hu", "HUNGARIAN"), ("no", "NORWEGIAN"), ("vi", "VIETNAMESE")]

/-- app.py detect_field_language (lines 65-76), identical in structure to
api/process.py lines 57-68: empty or whitespace-only text yields no
result; otherwise the markup is stripped again and, unless the remainder
is whitespace-only, the external detector is consulted on it. -/
def detect_field_language (detector : Detector) (text : String) : Option String :=
  if text = "" then none
  else if pyStrip text = "" then none
  else
    let clean_text := stripTagsStr text
    if pyStrip clean_text = "" then none
    else detector clean_text

/-- One row of the audio_cache metadata table, as selected by
get_cached_audio; only the file_path column is read back. -/
structure CacheRow where
  text_hash : String
  text : String
  file_path : String
  language : String
deriving DecidableEq

/-- app.py get_cached_audio (lines 83-94): query the metadata table for
the hash, download the stored file; any exception from either external
call is caught and the function returns None, exactly like a miss. -/
def get_cached_audio (query : String → Except StoreErr (List CacheRow))
    (download : String → Except StoreErr Blob) (text_hash : String) : Option Blob :=
  match query text_hash with
  | .error _ => none
  | .ok [] => none
  | .ok (row :: _) =>
    match download row.file_path with
    | .error _ => none
    | .ok audio_data => some audio_data

/-- api/process.py get_cached_audio (lines 79-91): same shape, but the
download step calls the misspelled attribute download_, so when the
metadata row exists the AttributeError is caught and the function still
returns None; it returns None on every input. -/
def get_cached_audio_api (query : String → Except StoreErr (List CacheRow))
    (text_hash : String) : Option Blob :=
  match query text_hash with
  | .error _ => none
  | .ok [] => none
  | .ok (_ :: _) => none

/-- Python text slicing text[:500] used when inserting cache metadata. -/
def strTake (s : String) (n : Nat) : String := ⟨s.data.take n⟩

/-- app.py cache_audio (lines 96-115) and api/process.py cache_audio
(lines 93-112): best-effort upload of the blob plus a metadata insert;
every exception is caught.  The Bool result records whether both external
writes succeeded; no caller reads it. -/
def cache_audio (upload : String → Blob → Except StoreErr Unit)
    (insert : CacheRow → Except StoreErr Unit)
    (text_hash text : String) (audio_data : Blob) (language : String) : Bool :=
  let filename := text_hash ++ ".mp3"
  match upload filename audio_data with
  | .error _ => false
  | .ok _ =>
    match insert ⟨text_hash, strTake text 500, filename, language⟩ with
    | .error _ => false
    | .ok _ => true

/-- app.py generate_audio_elevenlabs (lines 117-132): call the external
provider (voice, model and language code fixed by the source) and return
the joined bytes; any provider exception is caught and yields None. -/
def generate_audio_elevenlabs (convert : String → String → Except SynthErr Blob)
    (text language : String) : Option Blob :=
  match convert text language with
  | .ok audio_bytes => some audio_bytes
  | .error _ => none

/-- api/process.py generate_audio_elevenlabs (lines 114-127): the
provider result is bound to the misspelled name audio_generrator and the
join then reads the undefined name audio_generator, so the NameError is
caught and the function returns None whether or not the provider call
succeeded. -/
def generate_audio_elevenlabs_api (generate : String → Except SynthErr Blob)
    (text _language_code : String) : Option Blob :=
  match generate text with
  | .ok _ => none
  | .error _ => none

/-- Python single-character str.split on a character list: splitting
never drops empty pieces, and splitting the empty string yields one
empty piece. -/
def splitCharList (sep : Char) : List Char → List (List Char)
  | [] => [[]]
  | c :: rest =>
    let r := splitCharList sep rest
    if c = sep then [] :: r
    else
      match r with
      | [] => [[c]]
      | g :: gs => (c :: g) :: gs

/-- fields_str.split of the 0x1F field separator (app.py line 364,
api/process.py line 160). -/
def splitFields (s : String) : List String :=
  (splitCharList '\x1f' s.data).map (fun l => ⟨l⟩)

/-- The 0x1F join of api/process.py line 201. -/
def joinFields : List String → String
  | [] => ""
  | [x] => x
  | x :: y :: rest => x ++ "\x1f" ++ joinFields (y :: rest)

/-- One iteration of the role-assignment loop of app.py process_deck
(lines 370-387).  The state is the pair (foreign_text, native_text); a
field is skipped when its normalized text is empty, and otherwise fills
whichever slot its detection outcome selects, first writer wins.  A
detection outcome of None compares unequal to the native label, exactly
as the Python equality between None and a Language value is False. -/
def roles_step (detector : Detector) (native_lang : String)
    (st : Option String × Option String) (field : String) :
    Option String × Option String :=
  let clean_text := pyStrip (stripTagsStr field)
  if clean_text = "" then st
  else
    let detected_lang := detect_field_language detector clean_text
    if detected_lang = some native_lang then
      match st.2 with
      | none => (st.1, some clean_text)
      | some _ => st
    else
      match st.1 with
      | none => (some clean_text, st.2)
      | some _ => st

/-- First nonempty normalized field whose detection outcome is not the
native label (None and unmapped labels included): the amended reading of
the ForeignText rule that the loop in app.py lines 370-387 implements. -/
def first_non_native (detector : Detector) (native_lang : String) :
    List String → Option String
  | [] => none
  | field :: rest =>
    let clean_text := pyStrip (stripTagsStr field)
    if clean_text = "" then first_non_native detector native_lang rest
    else if detect_field_language detector clean_text = some native_lang then
      first_non_native detector native_lang rest
    else some clean_text

/-- One entry of the field_data list built by app.py analyze_deck
(lines 210-214). -/
structure FieldInfo where
  text : String
  detected_language : Option String
  is_native : Bool
deriving DecidableEq

/-- State of the per-note loop of analyze_deck: the accumulated
field_data, the foreign slots, and the local native_text, whose None
value means the local is still unbound (analyze_deck never initialises
it, unlike foreign_text). -/
structure AnalyzeSt where
  field_data : List FieldInfo
  foreign_text : Option String
  foreign_detected_lang : Option String
  native_text : Option String
deriving DecidableEq

/-- Reverse lookup of a detector label in LANGUAGE_MAP_app, as the loop
in analyze_deck lines 202-207 performs it (first code whose label equals
the detected one). -/
def reverse_lookup_code (detected : String) : Option String :=
  (LANGUAGE_MAP_app.find? (fun p => p.2 == detected)).map (fun p => p.1)

/-- One iteration of the analyze_deck per-note loop (app.py lines
194-224).  Reading the unbound local native_text on the native branch
raises UnboundLocalError, which analyze_deck does not catch. -/
def analyze_note_step (detector : Detector) (native_lang : String)
    (st : AnalyzeSt) (field : String) : Except PyErr AnalyzeSt :=
  let clean_text := pyStrip (stripTagsStr field)
  if clean_text = "" then .ok st
  else
    let detected_lang := detect_field_language detector clean_text
    let detected_lang_code :=
      match detected_lang with
      | none => none
      | some d => reverse_lookup_code d
    let fd := st.field_data ++ [⟨clean_text, detected_lang_code, detected_lang == some native_lang⟩]
    if detected_lang = some native_lang then
      match st.native_text with
      | none => .error (.unboundLocalError "native_text")
      | some nt =>
        if nt = "" then .ok { st with field_data := fd, native_text := some clean_text }
        else .ok { st with field_data := fd }
    else
      match st.foreign_text with
      | none => .ok { st with field_data := fd, foreign_text := some clean_text,
                              foreign_detected_lang := detected_lang_code }
      | some _ => .ok { st with field_data := fd }

/-- The card record analyze_deck appends to cards_data (lines 236-244). -/
structure AnalyzeCard where
  foreign_text : String
  native_text : String
  foreign_language : Option String
  is_uncertain : Bool
  all_fields : List FieldInfo
deriving DecidableEq

/-- app.py analyze_deck, per-note block (lines 185-244): run the field
loop, then the uncertainty check of line 226 with its positional
fallback, then the emission check of line 236.  Both checks read the
local native_text with Python short-circuiting, so they raise
UnboundLocalError whenever the preceding operand does not settle the
condition and native_text is still unbound.  The print on line 229 is a
parse error in the source and is treated as a no-op here.  The result is
the optional emitted card together with the is_uncertain flag. -/
def analyze_note_app (detector : Detector) (native_lang : String)
    (fields_str : String) : Except PyErr (Option AnalyzeCard × Bool) := do
  let fields := splitFields fields_str
  let st ← fields.foldlM (analyze_note_step detector native_lang)
    (⟨[], none, none, none⟩ : AnalyzeSt)
  let branch ←
    match st.foreign_text with
    | none => pure true
    | some ft =>
      if ft = "" then pure true
      else
        match st.native_text with
        | none => Except.error (.unboundLocalError "native_text")
        | some nt => pure (nt == "")
  let (st2, is_uncertain) :=
    if branch then
      if 2 ≤ st.field_data.length then
        let f0 := st.field_data.getD 0 ⟨"", none, false⟩
        let f1 := st.field_data.getD 1 ⟨"", none, false⟩
        ({ st with foreign_text := some f0.text,
                   foreign_detected_lang := f0.detected_language,
                   native_text := some f1.text }, true)
      else (st, true)
    else (st, false)
  match st2.foreign_text with
  | none => pure (none, is_uncertain)
  | some ft =>
    if ft = "" then pure (none, is_uncertain)
    else
      match st2.native_text with
      | none => Except.error (.unboundLocalError "native_text")
      | some nt =>
        if nt = "" then pure (none, is_uncertain)
        else pure (some ⟨ft, nt, st2.foreign_detected_lang, is_uncertain, st2.field_data⟩,
                   is_uncertain)

/-- The media dictionary of a run (audio filename to blob).  Updates are
modelled as cons, observed through List.lookup, under which the latest
binding for a key wins, matching Python dict assignment; the key set only
grows, also matching the dict. -/
abbrev MediaMap := List (String × Blob)

/-- Python dict assignment media[filename] = data, observed through
lookup. -/
def dictInsert (m : MediaMap) (k : String) (v : Blob) : MediaMap := (k, v) :: m

/-- Python falsiness of an optional bytes value: None and empty bytes
are both falsy, which is what the checks on audio_data test. -/
def optFalsy (a : Option Blob) : Bool :=
  match a with
  | none => true
  | some b => b.isEmpty

/-- An extracted deck archive: the names of the extracted files and the
rows of the notes table, each row being (id, flds). -/
structure Archive where
  files : List String
  notes : List (Nat × String)
deriving DecidableEq

/-- The output card built by app.py process_deck lines 412-415: the
Audio field holding the sound marker, then ForeignText and NativeText. -/
structure CardOut where
  audioField : String
  foreignText : String
  nativeText : String
deriving DecidableEq

/-- The observable output of one derive-variant run: the database name
that was probed, the emitted cards in note order, the media dictionary
written into the package, and the cards_created counter. -/
structure AppOutput where
  dbName : String
  cards : List CardOut
  media : MediaMap
  cardsCreated : Nat
deriving DecidableEq

/-- Database filename probing of app.py process_deck lines 324-329:
collection.anki21 first, collection.anki2 as fallback, with existence
read off the extracted file list. -/
def select_db_path_app (extracted : List String) : String :=
  if extracted.contains "collection.anki21" then "collection.anki21"
  else "collection.anki2"

/-- Database filename selection of api/process.py line 149: the legacy
collection.anki2 name is always used, with no probing of the extracted
file list. -/
def select_db_path_api (_extracted : List String) : String := "collection.anki2"

/-- app.py process_deck, per-note body (lines 363-418): split the flds
blob, run the role-assignment loop, and when both roles are present
resolve audio (cache lookup, then synthesis on miss with a best-effort
cache store whose result is discarded), add the blob to the media
dictionary and emit the card; when synthesis fails or yields empty bytes
the note is skipped with continue. -/
def process_note_app (detector : Detector) (native_lang : String)
    (query : String → Except StoreErr (List CacheRow))
    (download : String → Except StoreErr Blob)
    (upload : String → Blob → Except StoreErr Unit)
    (insert : CacheRow → Except StoreErr Unit)
    (convert : String → String → Except SynthErr Blob)
    (target_language : String)
    (media : MediaMap) (fields_str : String) : MediaMap × Option CardOut :=
  match (splitFields fields_str).foldl (roles_step detector native_lang) (none, none) with
  | (some foreign_text, some native_text) =>
    let text_hash := generate_audio_hash foreign_text
    let audio_filename := text_hash ++ ".mp3"
    let cached := get_cached_audio query download text_hash
    let audio_data :=
      if optFalsy cached then
        generate_audio_elevenlabs convert foreign_text target_language
      else cached
    (match audio_data with
     | none => (media, none)
     | some blob =>
       if blob.isEmpty then (media, none)
       else
         let _ :=
           if optFalsy cached then
             cache_audio upload insert text_hash foreign_text blob target_language
           else true
         (dictInsert media audio_filename blob,
          some ⟨"[sound:" ++ audio_filename ++ "]", foreign_text, native_text⟩))
  | _ => (media, none)

/-- The note loop of app.py process_deck (lines 363-418) over the rows
of the notes table, threading the media dictionary and collecting the
emitted cards in note order. -/
def process_notes_app (detector : Detector) (native_lang : String)
    (query : String → Except StoreErr (List CacheRow))
    (download : String → Except StoreErr Blob)
    (upload : String → Blob → Except StoreErr Unit)
    (insert : CacheRow → Except StoreErr Unit)
    (convert : String → String → Except SynthErr Blob)
    (target_language : String)
    (media : MediaMap) : List (Nat × String) → MediaMap × List CardOut
  | [] => (media, [])
  | row :: rest =>
    let r1 := process_note_app detector native_lang query download upload insert
      convert target_language media row.2
    let r2 := process_notes_app detector native_lang query download upload insert
      convert target_language r1.1 rest
    (r2.1, match r1.2 with
           | some c => c :: r2.2
           | none => r2.2)

/-- app.py process_deck executable body (lines 302-442): validate the
native code against LANGUAGE_MAP_app (line 302-305, ValueError on an
unknown code; the target code is never checked), probe the database
name, run the note loop, and package cards plus media.  The unreachable
duplicated preamble of lines 254-300 is modelled separately by
process_deck_app_run. -/
def process_deck_app_body (detector : Detector)
    (query : String → Except StoreErr (List CacheRow))
    (download : String → Except StoreErr Blob)
    (upload : String → Blob → Except StoreErr Unit)
    (insert : CacheRow → Except StoreErr Unit)
    (convert : String → String → Except SynthErr Blob)
    (target_language native_language : String)
    (archive : Archive) : Except PyErr AppOutput :=
  match LANGUAGE_MAP_app.lookup native_language with
  | none => .error (.valueError ("Unsupported native language code: " ++ native_language))
  | some native_lang =>
    let dbName := select_db_path_app archive.files
    let r := process_notes_app detector native_lang query download upload insert
      convert target_language [] archive.notes
    .ok ⟨dbName, r.2, r.1, r.2.length⟩

/-- app.py process_deck as actually written: before any other work, line
262 prints len(cards_data) where cards_data is a local that is never
assigned anywhere in the function, so every call raises NameError there
(and the module itself cannot even be imported because of the parse
error at line 229). -/
def process_deck_app_run (_archive : Archive)
    (_target_language _native_language : String) : Except PyErr AppOutput :=
  .error (.nameError "cards_data")

/-- api/process.py process_deck as actually written: the target code is
validated first (lines 132-134, ValueError on an unknown code), and the
very next statement calls tempfile.TemporaryDirector (line 136), an
attribute that does not exist, so no call ever proceeds past it (and the
module itself cannot be imported, see the file header). -/
def process_deck_api_run (_archive : Archive) (target_language : String) :
    Except PyErr Unit :=
  match LANGUAGE_MAP_api.lookup target_language with
  | none => .error (.valueError ("unsupported language: " ++ target_language))
  | some _ => .error (.attributeError "tempfile.TemporaryDirector")

/-- Whether an Except value is a success. -/
def exceptIsOk {ε α : Type} : Except ε α → Bool
  | .ok _ => true
  | .error _ => false

/-- api/process.py process_deck, per-field body (lines 165-199): a field
that already carries an audio marker is passed through; otherwise, when
the raw field detects as the target language and normalizes to nonempty
text, audio is resolved (cache lookup, synthesis on miss, best-effort
cache store whose result is discarded) and on success the marker is
appended to the field and the blob recorded; on failure the field is
appended unchanged.  The cache lookup and synthesis collaborators are
passed in as functions; in the source they are get_cached_audio_api and
generate_audio_elevenlabs_api, which the noted slips make constantly
None. -/
def process_field_api (detector : Detector) (target_lang target_language : String)
    (lookup : String → Option Blob) (synth : String → Option Blob)
    (upload : String → Blob → Except StoreErr Unit)
    (insert : CacheRow → Except StoreErr Unit)
    (files : MediaMap) (field : String) : MediaMap × String × Bool :=
  if has_audio_tag field then (files, field, false)
  else if detect_field_language detector field = some target_lang then
    let clean_text := pyStrip (stripTagsStr field)
    if clean_text = "" then (files, field, false)
    else
      let text_hash := generate_audio_hash clean_text
      let cached := lookup text_hash
      let audio_data := if optFalsy cached then synth clean_text else cached
      match audio_data with
      | none => (files, field, false)
      | some blob =>
        if blob.isEmpty then (files, field, false)
        else
          let _ :=
            if optFalsy cached then
              cache_audio upload insert text_hash clean_text blob target_language
            else true
          let audio_filename := text_hash ++ ".mp3"
          (dictInsert files audio_filename blob,
           field ++ " [sound:" ++ audio_filename ++ "]", true)
  else (files, field, false)

/-- The field loop of api/process.py process_deck (lines 162-199):
thread the audio_files dictionary, collect updated_fields in order, and
or-accumulate the modified flag. -/
def process_fields_api (detector : Detector) (target_lang target_language : String)
    (lookup : String → Option Blob) (synth : String → Option Blob)
    (upload : String → Blob → Except StoreErr Unit)
    (insert : CacheRow → Except StoreErr Unit)
    (files : MediaMap) : List String → MediaMap × List String × Bool
  | [] => (files, [], false)
  | field :: rest =>
    let r1 := process_field_api detector target_lang target_language lookup synth
      upload insert files field
    let r2 := process_fields_api detector target_lang target_language lookup synth
      upload insert r1.1 rest
    (r2.1, r1.2.1 :: r2.2.1, r1.2.2 || r2.2.2)

/-- The per-note database write decision of api/process.py lines
200-203: only when some field was modified is an UPDATE issued, with the
updated fields joined back by the 0x1F separator; otherwise the stored
flds blob is left untouched. -/
def note_update_api (detector : Detector) (target_lang target_language : String)
    (lookup : String → Option Blob) (synth : String → Option Blob)
    (upload : String → Blob → Except StoreErr Unit)
    (insert : CacheRow → Except StoreErr Unit)
    (files : MediaMap) (fields_str : String) : MediaMap × List String × Option String :=
  let r := process_fields_api detector target_lang target_language lookup synth
    upload insert files (splitFields fields_str)
  (r.1, r.2.1, if r.2.2 then some (joinFields r.2.1) else none)

/-- The note loop of api/process.py process_deck (lines 159-203) over
the rows of the notes table: each row yields its updated field list and
modified flag, the audio_files dictionary is threaded through, and
updated_count counts the modified rows. -/
def process_notes_api (detector : Detector) (target_lang target_language : String)
    (lookup : String → Option Blob) (synth : String → Option Blob)
    (upload : String → Blob → Except StoreErr Unit)
    (insert : CacheRow → Except StoreErr Unit)
    (files : MediaMap) : List (Nat × String) → MediaMap × List (Nat × List String × Bool) × Nat
  | [] => (files, [], 0)
  | row :: rest =>
    let r1 := process_fields_api detector target_lang target_language lookup synth
      upload insert files (splitFields row.2)
    let r2 := process_notes_api detector target_lang target_language lookup synth
      upload insert r1.1 rest
    (r2.1, (row.1, r1.2.1, r1.2.2) :: r2.2.1,
     (if r1.2.2 then 1 else 0) + r2.2.2)

/-- Decidable equality for Except values, used to evaluate the models at
concrete inputs. -/
instance exceptDecEq {ε α : Type} [DecidableEq ε] [DecidableEq α] :
    DecidableEq (Except ε α) := fun x y =>
  match x, y with
  | .ok a, .ok b => if h : a = b then .isTrue (by rw [h]) else .isFalse (by simp [h])
  | .error a, .error b => if h : a = b then .isTrue (by rw [h]) else .isFalse (by simp [h])
  | .ok _, .error _ => .isFalse (by simp)
  | .error _, .ok _ => .isFalse (by simp)

/-- A detector behaving like lingua on the demonstration inputs: Hola is
Spanish, Hello is English, digit strings yield no result. -/
def detDemo : Detector := fun s =>
  if s == "Hola" then some "SPANISH"
  else if s == "Hello" then some "ENGLISH"
  else none

/-- A detector that never returns a result. -/
def noDetect : Detector := fun _ => none

/-- Cache metadata query finding no row. -/
def queryEmpty : String → Except StoreErr (List CacheRow) := fun _ => .ok []

/-- Cache metadata query failing with a transport error. -/
def queryFail : String → Except StoreErr (List CacheRow) := fun _ => .error .transport

/-- Cache blob download succeeding with a fixed blob. -/
def downloadOk : String → Except StoreErr Blob := fun _ => .ok [9]

/-- Cache blob download failing with a transport error. -/
def downloadFail : String → Except StoreErr Blob := fun _ => .error .transport

/-- Cache blob upload succeeding. -/
def uploadOk : String → Blob → Except StoreErr Unit := fun _ _ => .ok ()

/-- Cache blob upload failing with a transport error. -/
def uploadFail : String → Blob → Except StoreErr Unit := fun _ _ => .error .transport

/-- Cache metadata insert succeeding. -/
def insertOk : CacheRow → Except StoreErr Unit := fun _ => .ok ()

/-- Cache metadata insert failing with a transport error. -/
def insertFail : CacheRow → Except StoreErr Unit := fun _ => .error .transport

/-- Synthesis provider succeeding with a fixed blob. -/
def convertOk : String → String → Except SynthErr Blob := fun _ _ => .ok [7]

/-- Cache lookup collaborator that always misses. -/
def lookupMiss : String → Option Blob := fun _ => none

/-- Cache lookup collaborator that always hits with a fixed blob. -/
def lookupHit : String → Option Blob := fun _ => some [9]

/-- Synthesis collaborator that always fails. -/
def synthNone : String → Option Blob := fun _ => none

/-- A one-note demonstration archive in the current sub-format. -/
def demoArchive : Archive := ⟨["collection.anki21"], [(1, "Hola\x1fHello")]⟩

/-- The output the derive-variant body produces on demoArchive with
detDemo, a missing cache and a succeeding synthesis provider; the hex
string is the MD5 digest of Hola. -/
def demoOut : AppOutput :=
  ⟨"collection.anki21",
   [⟨"[sound:f688ae26e9cfa3ba6235477831d5122e.mp3]", "Hola", "Hello"⟩],
   [("f688ae26e9cfa3ba6235477831d5122e.mp3", [7])], 1⟩

theorem scanGt_length : ∀ (l r : List Char), scanGt l = some r → r.length < l.length := by
  intro l
  induction l with
  | nil => intro r h; simp [scanGt] at h
  | cons c rest ih =>
    intro r h
    simp only [scanGt] at h
    by_cases hgt : c = '>'
    · simp [hgt] at h
      subst h
      simp [List.length_cons, Nat.lt_succ_self]
    · by_cases hlt : c = '<'
      · simp [hgt, hlt] at h
      · simp [hgt, hlt] at h
        exact Nat.lt_trans (ih r h) (Nat.lt_succ_self _)

theorem tryTag_length : ∀ (l r : List Char), tryTag l = some r → r.length < l.length := by
  intro l r h
  cases l with
  | nil => simp [tryTag] at h
  | cons c0 rest =>
    simp only [tryTag] at h
    by_cases hc : c0 = '<'
    · simp [hc] at h
    · simp [hc] at h
      exact Nat.lt_trans (scanGt_length rest r h) (Nat.lt_succ_self _)

/-- C1 counterexample: the cache key the pipelines compute for the same
text under the two distinct language codes es and fr is identical,
because generate_audio_hash digests the text only; consequently two
whole derive runs that differ only in the target language code produce
the same cards and the same media dictionary, keyed by the same
fingerprint filename.  The claim that fingerprints for distinct
languages differ is therefore false on this code. -/
theorem c1_counterexample :
    cardCacheKey "hola" "es" = cardCacheKey "hola" "fr" ∧ ("es" : String) ≠ "fr"
    ∧ process_deck_app_body detDemo queryEmpty downloadFail uploadOk insertOk convertOk
        "es" "en" demoArchive
      = process_deck_app_body detDemo queryEmpty downloadFail uploadOk insertOk convertOk
        "fr" "en" demoArchive :=
  ⟨rfl, by decide, by decide⟩

/-- C1 (amended): the audio cache fingerprint is a deterministic function
of the text alone, namely the MD5 hex digest of its UTF-8 bytes; for any
two language codes the fingerprints of the same text coincide. -/
theorem c1_fingerprint_text_only :
    ∀ (t l l' : String),
      cardCacheKey t l = MD5.md5Hex (strUTF8 t) ∧ cardCacheKey t l = cardCacheKey t l' :=
  fun _ _ _ => ⟨rfl, rfl⟩

/-- C2: on a two-field note whose fields classify as foreign then native,
the analyze_deck per-note block raises UnboundLocalError on the local
native_text instead of marking the note uncertain or emitting a card, so
the role assigner can never reach the positional fallback for a note
with any nonempty field. -/
theorem c2_analyze_note_unbound_local :
    analyze_note_app detDemo "ENGLISH" "Hola\x1fHello"
      = .error (.unboundLocalError "native_text") := by decide

/-- C3: both process_deck entry points fail unconditionally before the
per-card loop: the derive variant raises NameError on the unassigned
local cards_data (app.py line 262) and the augment variant raises
AttributeError on tempfile.TemporaryDirector (api/process.py line 136)
once a supported target code passes validation, so no deck conversion
ever terminates successfully, with or without synthesis failures. -/
theorem c3_process_deck_always_crashes :
    process_deck_app_run ⟨[], [(1, "Hola\x1fHello")]⟩ "es" "en"
        = .error (.nameError "cards_data")
    ∧ process_deck_api_run ⟨[], [(1, "Hola\x1fHello")]⟩ "es"
        = .error (.attributeError "tempfile.TemporaryDirector") :=
  ⟨rfl, by decide⟩

/-- C8 counterexample: on an extracted archive that does contain the
current table name, the augment variant still opens the legacy name, so
the probing order the claim states does not hold for it. -/
theorem c8_counterexample :
    select_db_path_api ["collection.anki21"] = "collection.anki2"
    ∧ "collection.anki2" ≠ "collection.anki21" :=
  ⟨rfl, by decide⟩

/-- C8 (amended): the derive variant probes collection.anki21 first and
falls back to collection.anki2 exactly when the current name is absent;
the augment variant always uses the legacy collection.anki2 name with no
probing. -/
theorem c8_probe_order :
    (∀ files : List String, files.contains "collection.anki21" = true →
        select_db_path_app files = "collection.anki21")
    ∧ (∀ files : List String, files.contains "collection.anki21" = false →
        select_db_path_app files = "collection.anki2")
    ∧ (∀ files : List String, select_db_path_api files = "collection.anki2") :=
  ⟨fun files h => by unfold select_db_path_app; rw [h]; rfl,
   fun files h => by unfold select_db_path_app; rw [h]; rfl,
   fun _ => rfl⟩

/-- C8 witness: the probe rules evaluated on concrete extracted file
lists with and without the current table name. -/
theorem c8_witness :
    select_db_path_app ["media", "collection.anki21"] = "collection.anki21"
    ∧ select_db_path_app ["media", "collection.anki2"] = "collection.anki2"
    ∧ select_db_path_api ["media", "collection.anki2"] = "collection.anki2" :=
  ⟨c8_probe_order.1 ["media", "collection.anki21"] (by decide),
   c8_probe_order.2.1 ["media", "collection.anki2"] (by decide),
   c8_probe_order.2.2 ["media", "collection.anki2"]⟩

/-- C9: a field that already carries an audio marker is returned
unchanged with no media added and no modified flag, for every cache
lookup and synthesis collaborator alike, so no cache lookup or synthesis
call can be observed for it. -/
theorem c9_audio_marker_passthrough :
    ∀ (detector : Detector) (target_lang target_language : String)
      (lookup synth : String → Option Blob)
      (upload : String → Blob → Except StoreErr Unit)
      (insert : CacheRow → Except StoreErr Unit)
      (files : MediaMap) (field : String),
      has_audio_tag field = true →
      process_field_api detector target_lang target_language lookup synth upload insert
        files field = (files, field, false) := by
  intro detector target_lang target_language lookup synth upload insert files field h
  unfold process_field_api
  simp [h]

/-- C9 witness: the passthrough rule evaluated on a concrete marked
field, with a cache collaborator that would have returned audio had it
been consulted. -/
theorem c9_witness :
    has_audio_tag "hola [sound:a.mp3]" = true
    ∧ process_field_api detDemo "SPANISH" "es" lookupHit synthNone uploadOk insertOk []
        "hola [sound:a.mp3]" = ([], "hola [sound:a.mp3]", false) :=
  ⟨by decide,
   c9_audio_marker_passthrough detDemo "SPANISH" "es" lookupHit synthNone uploadOk insertOk
     [] "hola [sound:a.mp3]" (by decide)⟩

/-- C5 counterexample: with the unsupported target code xx and the
supported native code en, the derive-variant body validates nothing
about the target and completes an entire run successfully, so an
unsupported code does not fail fast before archive processing. -/
theorem c5_counterexample :
    LANGUAGE_MAP_app.lookup "xx" = none
    ∧ process_deck_app_body noDetect queryEmpty downloadFail uploadOk insertOk convertOk
        "xx" "en" ⟨[], []⟩ = .ok ⟨"collection.anki2", [], [], 0⟩ :=
  ⟨by decide, by decide⟩

/-- C5 (amended): each pipeline validates exactly one language code once,
before any archive work: the derive variant checks only the native code
(failing with ValueError on an unknown one, independently of the target
code and of the archive), and the augment variant checks only the target
code, with an outcome independent of the archive. -/
theorem c5_validation_scope :
    ∀ (detector : Detector) (query : String → Except StoreErr (List CacheRow))
      (download : String → Except StoreErr Blob)
      (upload : String → Blob → Except StoreErr Unit)
      (insert : CacheRow → Except StoreErr Unit)
      (convert : String → String → Except SynthErr Blob)
      (t n : String) (a a' : Archive),
      exceptIsOk (process_deck_app_body detector query download upload insert convert t n a)
        = (LANGUAGE_MAP_app.lookup n).isSome
      ∧ (LANGUAGE_MAP_app.lookup n = none →
          process_deck_app_body detector query download upload insert convert t n a
            = .error (.valueError ("Unsupported native language code: " ++ n)))
      ∧ process_deck_api_run a t = process_deck_api_run a' t
      ∧ (LANGUAGE_MAP_api.lookup t = none →
          process_deck_api_run a t = .error (.valueError ("unsupported language: " ++ t))) := by
  intro detector query download upload insert convert t n a a'
  refine ⟨?_, ?_, rfl, ?_⟩
  · cases h : LANGUAGE_MAP_app.lookup n <;>
      simp [process_deck_app_body, h, exceptIsOk]
  · intro h
    simp [process_deck_app_body, h]
  · intro h
    simp [process_deck_api_run, h]

/-- C5 witness: the validation-scope rules evaluated at the unsupported
code xx on both pipelines. -/
theorem c5_witness :
    process_deck_app_body noDetect queryEmpty downloadFail uploadOk insertOk convertOk
        "es" "xx" ⟨[], []⟩ = .error (.valueError "Unsupported native language code: xx")
    ∧ process_deck_api_run ⟨[], []⟩ "xx"
        = .error (.valueError "unsupported language: xx") :=
  ⟨(c5_validation_scope noDetect queryEmpty downloadFail uploadOk insertOk convertOk
      "es" "xx" ⟨[], []⟩ ⟨[], []⟩).2.1 (by decide),
   (c5_validation_scope noDetect queryEmpty downloadFail uploadOk insertOk convertOk
      "xx" "en" ⟨[], []⟩ ⟨[], []⟩).2.2.2 (by decide)⟩

/-- C6: cache degradation is never fatal: a failing metadata query or a
failing blob download makes the cache lookup return exactly a miss, and
the per-note processing result of the derive variant does not depend on
the cache store collaborators at all, so a failed best-effort store
still leaves the synthesized blob attached to the output of the run. -/
theorem c6_cache_degradation :
    (∀ (query : String → Except StoreErr (List CacheRow))
       (download : String → Except StoreErr Blob) (text_hash : String),
       exceptIsOk (query text_hash) = false →
       get_cached_audio query download text_hash = none)
    ∧ (∀ (query : String → Except StoreErr (List CacheRow))
       (download : String → Except StoreErr Blob) (text_hash : String)
       (row : CacheRow) (rest : List CacheRow),
       query text_hash = .ok (row :: rest) →
       exceptIsOk (download row.file_path) = false →
       get_cached_audio query download text_hash = none)
    ∧ (∀ (detector : Detector) (native_lang : String)
       (query : String → Except StoreErr (List CacheRow))
       (download : String → Except StoreErr Blob)
       (upload upload' : String → Blob → Except StoreErr Unit)
       (insert insert' : CacheRow → Except StoreErr Unit)
       (convert : String → String → Except SynthErr Blob)
       (target_language : String) (media : MediaMap) (fields_str : String),
       process_note_app detector native_lang query download upload insert convert
         target_language media fields_str
       = process_note_app detector native_lang query download upload' insert' convert
         target_language media fields_str) := by
  refine ⟨?_, ?_, ?_⟩
  · intro query download text_hash h
    unfold get_cached_audio
    cases hq : query text_hash with
    | error e => rfl
    | ok rows => rw [hq] at h; simp [exceptIsOk] at h
  · intro query download text_hash row rest hq hd
    have hred : get_cached_audio query download text_hash
        = match download row.file_path with
          | .error _ => none
          | .ok audio_data => some audio_data := by
      unfold get_cached_audio; rw [hq]
    rw [hred]
    cases hdl : download row.file_path with
    | error e => rfl
    | ok b => rw [hdl] at hd; simp [exceptIsOk] at hd
  · intro detector native_lang query download upload upload' insert insert' convert
      target_language media fields_str
    rfl

/-- C6 witness: a transport-failing query behaves as a miss, a
transport-failing download behaves as a miss, and a concrete per-note
run with failing store collaborators equals the same run with succeeding
ones. -/
theorem c6_witness :
    get_cached_audio queryFail downloadOk "cafe" = none
    ∧ get_cached_audio (fun h => .ok [⟨h, "", h ++ ".mp3", "es"⟩]) downloadFail "cafe" = none
    ∧ process_note_app detDemo "ENGLISH" queryEmpty downloadOk uploadFail insertFail
        convertOk "es" [] "Hola\x1fHello"
      = process_note_app detDemo "ENGLISH" queryEmpty downloadOk uploadOk insertOk
        convertOk "es" [] "Hola\x1fHello" :=
  ⟨c6_cache_degradation.1 queryFail downloadOk "cafe" rfl,
   c6_cache_degradation.2.1 (fun h => .ok [⟨h, "", h ++ ".mp3", "es"⟩]) downloadFail
     "cafe" ⟨"cafe", "", "cafe.mp3", "es"⟩ [] rfl rfl,
   c6_cache_degradation.2.2 detDemo "ENGLISH" queryEmpty downloadOk uploadFail uploadOk
     insertFail insertOk convertOk "es" [] "Hola\x1fHello"⟩

/-- Generalisation of the C4 characterisation over an arbitrary loop
state: the foreign slot of the role-assignment fold is its incoming
value if already set, and otherwise the first nonempty normalized field
whose detection outcome is not the native label. -/
theorem roles_foldl_foreign_general (detector : Detector) (native_lang : String) :
    ∀ (fields : List String) (st : Option String × Option String),
      (fields.foldl (roles_step detector native_lang) st).1
        = match st.1 with
          | some x => some x
          | none => first_non_native detector native_lang fields := by
  intro fields
  induction fields with
  | nil =>
    intro st
    cases h : st.1 <;> simp [first_non_native, h]
  | cons f rest ih =>
    intro st
    rw [List.foldl_cons, ih]
    by_cases hc : pyStrip (stripTagsStr f) = ""
    · cases h1 : st.1 <;>
        simp [roles_step, first_non_native, hc, h1]
    · by_cases hd : detect_field_language detector (pyStrip (stripTagsStr f))
          = some native_lang
      · cases h2 : st.2 <;> cases h1 : st.1 <;>
          simp [roles_step, first_non_native, hc, hd, h1, h2]
      · cases h1 : st.1 <;>
          simp [roles_step, first_non_native, hc, hd, h1]

/-- C4 counterexample: on a note whose first field has no classification
at all (the detector returns no result for the digit string) and whose
second field classifies as the native language, the role-assignment loop
still assigns the first field as ForeignText, so a field with absent
classification is chosen. -/
theorem c4_counterexample :
    (["12345", "Hello"].foldl (roles_step detDemo "ENGLISH") (none, none)).1 = some "12345"
    ∧ detect_field_language detDemo "12345" = none :=
  ⟨by decide, by decide⟩

/-- C4 (amended): ForeignText is the first nonempty normalized field, in
original field order, whose detection outcome is not the native label,
including fields whose classification is absent (detector returned no
result or an unmapped label), because the loop only compares the raw
detection outcome against the native language value. -/
theorem c4_first_non_native :
    ∀ (detector : Detector) (native_lang : String) (fields : List String),
      (fields.foldl (roles_step detector native_lang) (none, none)).1
        = first_non_native detector native_lang fields :=
  fun detector native_lang fields =>
    roles_foldl_foreign_general detector native_lang fields (none, none)

theorem lookup_dictInsert_self (m : MediaMap) (k : String) (v : Blob) :
    ((dictInsert m k v).lookup k).isSome = true := by
  simp [dictInsert, List.lookup]

theorem lookup_dictInsert_mono (m : MediaMap) (k k' : String) (v : Blob)
    (h : (m.lookup k').isSome = true) :
    ((dictInsert m k v).lookup k').isSome = true := by
  by_cases he : k' == k <;> simp [dictInsert, List.lookup, he, h]

/-- Every invocation of the augment-variant field body either returns
the field and the media unchanged with no modified flag, or records a
blob under a fresh filename and appends exactly the corresponding marker
to the field. -/
theorem process_field_api_spec (detector : Detector)
    (target_lang target_language : String)
    (lookup synth : String → Option Blob)
    (upload : String → Blob → Except StoreErr Unit)
    (insert : CacheRow → Except StoreErr Unit)
    (files : MediaMap) (field : String) :
    process_field_api detector target_lang target_language lookup synth upload insert
        files field = (files, field, false)
    ∨ ∃ fn b, process_field_api detector target_lang target_language lookup synth upload
        insert files field
        = (dictInsert files fn b, field ++ " [sound:" ++ fn ++ "]", true) := by
  unfold process_field_api
  split
  · exact Or.inl rfl
  split
  · dsimp only
    split
    · exact Or.inl rfl
    · split
      · exact Or.inl rfl
      · split
        · exact Or.inl rfl
        · exact Or.inr ⟨_, _, rfl⟩
  · exact Or.inl rfl

/-- The field loop of the augment variant: media keys persist, the
updated field list is aligned with the input fields, an unmodified note
keeps its fields verbatim, every updated field is the original with one
marker appended whose blob is recorded in the final media, and the
modified flag is set exactly when some field gained a marker. -/
theorem process_fields_api_spec (detector : Detector)
    (target_lang target_language : String)
    (lookup synth : String → Option Blob)
    (upload : String → Blob → Except StoreErr Unit)
    (insert : CacheRow → Except StoreErr Unit) :
    ∀ (fields : List String) (files m2 : MediaMap) (ufs : List String) (md : Bool),
      process_fields_api detector target_lang target_language lookup synth upload insert
        files fields = (m2, ufs, md) →
      (∀ k, (files.lookup k).isSome = true → (m2.lookup k).isSome = true)
      ∧ ufs.length = fields.length
      ∧ (md = false → ufs = fields)
      ∧ (∀ p ∈ fields.zip ufs,
          p.2 = p.1 ∨ ∃ fn, p.2 = p.1 ++ " [sound:" ++ fn ++ "]"
            ∧ ((m2.lookup fn).isSome = true))
      ∧ (md = true → ∃ p ∈ fields.zip ufs, ∃ fn, p.2 = p.1 ++ " [sound:" ++ fn ++ "]") := by
  intro fields
  induction fields with
  | nil =>
    intro files m2 ufs md h
    unfold process_fields_api at h
    injection h with h1 h23
    injection h23 with h2 h3
    subst h1 h2 h3
    refine ⟨fun k hk => hk, rfl, fun _ => rfl, ?_, ?_⟩
    · intro p hp
      simp at hp
    · intro hmd
      simp at hmd
  | cons f rest ih =>
    intro files m2 ufs md h
    have hcons : process_fields_api detector target_lang target_language lookup synth
        upload insert files (f :: rest)
        = ((process_fields_api detector target_lang target_language lookup synth upload
              insert (process_field_api detector target_lang target_language lookup synth
                upload insert files f).1 rest).1,
           (process_field_api detector target_lang target_language lookup synth upload
              insert files f).2.1 ::
             (process_fields_api detector target_lang target_language lookup synth upload
               insert (process_field_api detector target_lang target_language lookup synth
                 upload insert files f).1 rest).2.1,
           (process_field_api detector target_lang target_language lookup synth upload
              insert files f).2.2 ||
             (process_fields_api detector target_lang target_language lookup synth upload
               insert (process_field_api detector target_lang target_language lookup synth
                 upload insert files f).1 rest).2.2) := rfl
    rcases process_field_api_spec detector target_lang target_language lookup synth
        upload insert files f with hpf | ⟨fn, b, hpf⟩
    · rcases hr2 : process_fields_api detector target_lang target_language lookup synth
          upload insert files rest with ⟨m2x, ufsx, mdx⟩
      rw [hcons, hpf] at h
      dsimp only at h
      rw [hr2] at h
      dsimp only at h
      injection h with h1 h23
      injection h23 with h2 h3
      subst h1 h2 h3
      rcases ih files m2x ufsx mdx hr2 with ⟨ihmono, ihlen, ihunch, ihdich, ihflag⟩
      refine ⟨ihmono, by simp [ihlen], ?_, ?_, ?_⟩
      · intro hmd
        simp only [Bool.false_or] at hmd
        rw [ihunch hmd]
      · intro p hp
        rw [List.zip_cons_cons] at hp
        rcases List.mem_cons.mp hp with hhead | htail
        · exact Or.inl (by rw [hhead])
        · exact ihdich p htail
      · intro hmd
        simp only [Bool.false_or] at hmd
        rcases ihflag hmd with ⟨p, hp, fnx, hfn⟩
        exact ⟨p, by rw [List.zip_cons_cons]; exact List.mem_cons_of_mem _ hp, fnx, hfn⟩
    · rcases hr2 : process_fields_api detector target_lang target_language lookup synth
          upload insert (dictInsert files fn b) rest with ⟨m2x, ufsx, mdx⟩
      rw [hcons, hpf] at h
      dsimp only at h
      rw [hr2] at h
      dsimp only at h
      injection h with h1 h23
      injection h23 with h2 h3
      subst h1 h2 h3
      rcases ih (dictInsert files fn b) m2x ufsx mdx hr2 with
        ⟨ihmono, ihlen, ihunch, ihdich, ihflag⟩
      refine ⟨?_, by simp [ihlen], ?_, ?_, ?_⟩
      · intro k hk
        exact ihmono k (lookup_dictInsert_mono files fn k b hk)
      · intro hmd
        simp at hmd
      · intro p hp
        rw [List.zip_cons_cons] at hp
        rcases List.mem_cons.mp hp with hhead | htail
        · refine Or.inr ⟨fn, by rw [hhead], ?_⟩
          exact ihmono fn (lookup_dictInsert_self files fn b)
        · exact ihdich p htail
      · intro _
        refine ⟨(f, f ++ " [sound:" ++ fn ++ "]"), ?_, fn, rfl⟩
        rw [List.zip_cons_cons]
        exact List.mem_cons_self _ _

/-- C10: augment-mode frame conditions.  For every note, when no field
gains an audio marker the modified flag stays false and no database
update is issued (the stored flds blob stays byte-identical); the
updated field list is aligned with the input fields; every output field
is either the input field verbatim or the input field with exactly one
audio marker appended as a suffix; and if every field is unchanged then
the note is not updated. -/
theorem c10_augment_frame :
    ∀ (detector : Detector) (target_lang target_language : String)
      (lookup synth : String → Option Blob)
      (upload : String → Blob → Except StoreErr Unit)
      (insert : CacheRow → Except StoreErr Unit)
      (files m2 : MediaMap) (fields_str : String)
      (ufs : List String) (md : Bool),
      process_fields_api detector target_lang target_language lookup synth upload insert
        files (splitFields fields_str) = (m2, ufs, md) →
      ufs.length = (splitFields fields_str).length
      ∧ (md = false →
          ufs = splitFields fields_str
          ∧ (note_update_api detector target_lang target_language lookup synth upload
              insert files fields_str).2.2 = none)
      ∧ (∀ p ∈ (splitFields fields_str).zip ufs,
          p.2 = p.1 ∨ ∃ fn, p.2 = p.1 ++ " [sound:" ++ fn ++ "]")
      ∧ ((∀ p ∈ (splitFields fields_str).zip ufs, p.2 = p.1) →
          md = false
          ∧ (note_update_api detector target_lang target_language lookup synth upload
              insert files fields_str).2.2 = none) := by
  intro detector target_lang target_language lookup synth upload insert files m2
    fields_str ufs md h
  have hupd : md = false →
      (note_update_api detector target_lang target_language lookup synth upload
        insert files fields_str).2.2 = none := by
    intro hmd
    unfold note_update_api
    rw [h, hmd]
    rfl
  rcases process_fields_api_spec detector target_lang target_language lookup synth
      upload insert (splitFields fields_str) files m2 ufs md h with
    ⟨_, hlen, hunch, hdich, hflag⟩
  refine ⟨hlen, fun hmd => ⟨hunch hmd, hupd hmd⟩, ?_, ?_⟩
  · intro p hp
    rcases hdich p hp with hsame | ⟨fn, hfn, _⟩
    · exact Or.inl hsame
    · exact Or.inr ⟨fn, hfn⟩
  · intro hall
    have hmd : md = false := by
      by_contra hne
      have hmd1 : md = true := by
        cases md
        · exact absurd rfl hne
        · rfl
      rcases hflag hmd1 with ⟨p, hp, fn, hfn⟩
      have hsame := hall p hp
      rw [hsame] at hfn
      have hlen1 := congrArg String.length hfn
      have h8 : (" [sound:" : String).length = 8 := rfl
      have h9 : ("]" : String).length = 1 := rfl
      rw [String.length_append, String.length_append, String.length_append, h8, h9]
        at hlen1
      omega
    exact ⟨hmd, hupd hmd⟩

/-- C10 witness: a concrete two-field note in which no field gains a
marker keeps its fields verbatim and issues no database update. -/
theorem c10_witness :
    (["hola", "hello"] : List String) = splitFields "hola\x1fhello"
    ∧ (note_update_api noDetect "SPANISH" "es" lookupMiss synthNone uploadOk insertOk []
        "hola\x1fhello").2.2 = none :=
  (c10_augment_frame noDetect "SPANISH" "es" lookupMiss synthNone uploadOk insertOk
    [] [] "hola\x1fhello" ["hola", "hello"] false (by decide)).2.1 rfl

/-- Per-note resolution of the derive variant: media keys persist, and
whenever a card is emitted its audio field is a single sound marker whose
filename is recorded in the resulting media dictionary. -/
theorem process_note_app_spec (detector : Detector) (native_lang : String)
    (query : String → Except StoreErr (List CacheRow))
    (download : String → Except StoreErr Blob)
    (upload : String → Blob → Except StoreErr Unit)
    (insert : CacheRow → Except StoreErr Unit)
    (convert : String → String → Except SynthErr Blob)
    (target_language : String) :
    ∀ (media m2 : MediaMap) (fields_str : String) (cardOpt : Option CardOut),
      process_note_app detector native_lang query download upload insert convert
        target_language media fields_str = (m2, cardOpt) →
      (∀ k, (media.lookup k).isSome = true → (m2.lookup k).isSome = true)
      ∧ (∀ c, cardOpt = some c →
          ∃ fn, c.audioField = "[sound:" ++ fn ++ "]" ∧ (m2.lookup fn).isSome = true) := by
  intro media m2 fields_str cardOpt h
  unfold process_note_app at h
  split at h
  · dsimp only at h
    split at h
    · injection h with h1 h2
      subst h1 h2
      exact ⟨fun k hk => hk, fun c hc => by simp at hc⟩
    · split at h
      · injection h with h1 h2
        subst h1 h2
        exact ⟨fun k hk => hk, fun c hc => by simp at hc⟩
      · injection h with h1 h2
        subst h1 h2
        refine ⟨?_, ?_⟩
        · intro k hk
          exact lookup_dictInsert_mono media _ k _ hk
        · intro c hc
          injection hc with hc
          subst hc
          exact ⟨_, rfl, lookup_dictInsert_self media _ _⟩
  · injection h with h1 h2
    subst h1 h2
    exact ⟨fun k hk => hk, fun c hc => by simp at hc⟩

/-- The note loop of the derive variant: media keys persist and every
emitted card references a filename recorded in the final media
dictionary. -/
theorem process_notes_app_spec (detector : Detector) (native_lang : String)
    (query : String → Except StoreErr (List CacheRow))
    (download : String → Except StoreErr Blob)
    (upload : String → Blob → Except StoreErr Unit)
    (insert : CacheRow → Except StoreErr Unit)
    (convert : String → String → Except SynthErr Blob)
    (target_language : String) :
    ∀ (notes : List (Nat × String)) (media m2 : MediaMap) (cs : List CardOut),
      process_notes_app detector native_lang query download upload insert convert
        target_language media notes = (m2, cs) →
      (∀ k, (media.lookup k).isSome = true → (m2.lookup k).isSome = true)
      ∧ (∀ c ∈ cs,
          ∃ fn, c.audioField = "[sound:" ++ fn ++ "]" ∧ (m2.lookup fn).isSome = true) := by
  intro notes
  induction notes with
  | nil =>
    intro media m2 cs h
    unfold process_notes_app at h
    injection h with h1 h2
    subst h1 h2
    exact ⟨fun k hk => hk, fun c hc => by simp at hc⟩
  | cons row rest ih =>
    intro media m2 cs h
    have hcons : process_notes_app detector native_lang query download upload insert
        convert target_language media (row :: rest)
        = ((process_notes_app detector native_lang query download upload insert convert
              target_language (process_note_app detector native_lang query download upload
                insert convert target_language media row.2).1 rest).1,
           match (process_note_app detector native_lang query download upload insert
              convert target_language media row.2).2 with
           | some c => c :: (process_notes_app detector native_lang query download upload
              insert convert target_language (process_note_app detector native_lang query
                download upload insert convert target_language media row.2).1 rest).2
           | none => (process_notes_app detector native_lang query download upload insert
              convert target_language (process_note_app detector native_lang query download
                upload insert convert target_language media row.2).1 rest).2) := rfl
    rcases hr1 : process_note_app detector native_lang query download upload insert
        convert target_language media row.2 with ⟨m1, cardOpt⟩
    rw [hcons, hr1] at h
    dsimp only at h
    rcases hr2 : process_notes_app detector native_lang query download upload insert
        convert target_language m1 rest with ⟨m2x, csx⟩
    rw [hr2] at h
    dsimp only at h
    rcases process_note_app_spec detector native_lang query download upload insert
        convert target_language media m1 row.2 cardOpt hr1 with ⟨hmono1, hcard1⟩
    rcases ih m1 m2x csx hr2 with ⟨hmono2, hcard2⟩
    cases cardOpt with
    | none =>
      injection h with h1 h2
      subst h1 h2
      exact ⟨fun k hk => hmono2 k (hmono1 k hk), hcard2⟩
    | some c0 =>
      injection h with h1 h2
      subst h1 h2
      refine ⟨fun k hk => hmono2 k (hmono1 k hk), ?_⟩
      intro c hc
      rcases List.mem_cons.mp hc with hhead | htail
      · rcases hcard1 c0 rfl with ⟨fn, hfn, hlk⟩
        exact ⟨fn, by rw [hhead, hfn], hmono2 fn hlk⟩
      · exact hcard2 c htail

/-- The note loop of the augment variant: media keys persist, the output
rows align with the input notes, and every field of every output row is
the input field or the input field with one marker appended whose blob
is recorded in the final media dictionary. -/
theorem process_notes_api_spec (detector : Detector)
    (target_lang target_language : String)
    (lookup synth : String → Option Blob)
    (upload : String → Blob → Except StoreErr Unit)
    (insert : CacheRow → Except StoreErr Unit) :
    ∀ (notes : List (Nat × String)) (files m2 : MediaMap)
      (rows : List (Nat × List String × Bool)) (cnt : Nat),
      process_notes_api detector target_lang target_language lookup synth upload insert
        files notes = (m2, rows, cnt) →
      (∀ k, (files.lookup k).isSome = true → (m2.lookup k).isSome = true)
      ∧ rows.length = notes.length
      ∧ (∀ pr ∈ notes.zip rows, ∀ p ∈ (splitFields pr.1.2).zip pr.2.2.1,
          p.2 = p.1 ∨ ∃ fn, p.2 = p.1 ++ " [sound:" ++ fn ++ "]"
            ∧ (m2.lookup fn).isSome = true) := by
  intro notes
  induction notes with
  | nil =>
    intro files m2 rows cnt h
    unfold process_notes_api at h
    injection h with h1 h23
    injection h23 with h2 h3
    subst h1 h2 h3
    exact ⟨fun k hk => hk, rfl, fun pr hpr => by simp at hpr⟩
  | cons row rest ih =>
    intro files m2 rows cnt h
    have hcons : process_notes_api detector target_lang target_language lookup synth
        upload insert files (row :: rest)
        = ((process_notes_api detector target_lang target_language lookup synth upload
              insert (process_fields_api detector target_lang target_language lookup synth
                upload insert files (splitFields row.2)).1 rest).1,
           (row.1,
            (process_fields_api detector target_lang target_language lookup synth upload
              insert files (splitFields row.2)).2.1,
            (process_fields_api detector target_lang target_language lookup synth upload
              insert files (splitFields row.2)).2.2) ::
             (process_notes_api detector target_lang target_language lookup synth upload
               insert (process_fields_api detector target_lang target_language lookup synth
                 upload insert files (splitFields row.2)).1 rest).2.1,
           (if (process_fields_api detector target_lang target_language lookup synth upload
              insert files (splitFields row.2)).2.2 then 1 else 0) +
             (process_notes_api detector target_lang target_language lookup synth upload
               insert (process_fields_api detector target_lang target_language lookup synth
                 upload insert files (splitFields row.2)).1 rest).2.2) := rfl
    rcases hr1 : process_fields_api detector target_lang target_language lookup synth
        upload insert files (splitFields row.2) with ⟨m1, ufs1, md1⟩
    rw [hcons, hr1] at h
    dsimp only at h
    rcases hr2 : process_notes_api detector target_lang target_language lookup synth
        upload insert m1 rest with ⟨m2x, rowsx, cntx⟩
    rw [hr2] at h
    dsimp only at h
    injection h with h1 h23
    injection h23 with h2 h3
    subst h1 h2 h3
    rcases process_fields_api_spec detector target_lang target_language lookup synth
        upload insert (splitFields row.2) files m1 ufs1 md1 hr1 with
      ⟨hmono1, _, _, hdich1, _⟩
    rcases ih m1 m2x rowsx cntx hr2 with ⟨hmono2, hlen2, hdich2⟩
    refine ⟨fun k hk => hmono2 k (hmono1 k hk), by simp [hlen2], ?_⟩
    intro pr hpr
    rw [List.zip_cons_cons] at hpr
    rcases List.mem_cons.mp hpr with hhead | htail
    · subst hhead
      intro p hp
      rcases hdich1 p hp with hsame | ⟨fn, hfn, hlk⟩
      · exact Or.inl hsame
      · exact Or.inr ⟨fn, hfn, hmono2 fn hlk⟩
    · exact hdich2 pr htail

/-- C7: whenever the derive-variant body completes, every emitted card
references exactly one sound filename, and that filename is present in
the media dictionary written into the package; and in the augment
variant, every output field either equals its input field or gained
exactly one marker whose blob is recorded in the final audio_files
dictionary written into the archive. -/
theorem c7_markers_resolve_in_media :
    (∀ (detector : Detector) (query : String → Except StoreErr (List CacheRow))
       (download : String → Except StoreErr Blob)
       (upload : String → Blob → Except StoreErr Unit)
       (insert : CacheRow → Except StoreErr Unit)
       (convert : String → String → Except SynthErr Blob)
       (t n : String) (archive : Archive) (out : AppOutput),
       process_deck_app_body detector query download upload insert convert t n archive
         = .ok out →
       ∀ c ∈ out.cards,
         ∃ fn, c.audioField = "[sound:" ++ fn ++ "]"
           ∧ (out.media.lookup fn).isSome = true)
    ∧ (∀ (detector : Detector) (target_lang target_language : String)
       (lookup synth : String → Option Blob)
       (upload : String → Blob → Except StoreErr Unit)
       (insert : CacheRow → Except StoreErr Unit)
       (notes : List (Nat × String)) (m2 : MediaMap)
       (rows : List (Nat × List String × Bool)) (cnt : Nat),
       process_notes_api detector target_lang target_language lookup synth upload insert
         [] notes = (m2, rows, cnt) →
       ∀ pr ∈ notes.zip rows, ∀ p ∈ (splitFields pr.1.2).zip pr.2.2.1,
         p.2 = p.1 ∨ ∃ fn, p.2 = p.1 ++ " [sound:" ++ fn ++ "]"
           ∧ (m2.lookup fn).isSome = true) := by
  constructor
  · intro detector query download upload insert convert t n archive out h
    unfold process_deck_app_body at h
    split at h
    · exact absurd h (by simp)
    · rcases hr : process_notes_app detector _ query download upload insert convert t
          [] archive.notes with ⟨m2, cs⟩
      rw [hr] at h
      dsimp only at h
      injection h with h1
      subst h1
      dsimp only
      intro c hc
      exact (process_notes_app_spec detector _ query download upload insert convert t
        archive.notes [] m2 cs hr).2 c hc
  · intro detector target_lang target_language lookup synth upload insert notes m2
      rows cnt h
    exact (process_notes_api_spec detector target_lang target_language lookup synth
      upload insert notes [] m2 rows cnt h).2.2

/-- C7 witness: a concrete one-note derive run in which synthesis
succeeds produces a card whose sound filename is present in the package
media dictionary (the filename is the MD5 digest of Hola). -/
theorem c7_witness :
    ∃ fn, (⟨"[sound:f688ae26e9cfa3ba6235477831d5122e.mp3]", "Hola", "Hello"⟩ :
        CardOut).audioField = "[sound:" ++ fn ++ "]"
      ∧ (demoOut.media.lookup fn).isSome = true :=
  c7_markers_resolve_in_media.1 detDemo queryEmpty downloadFail uploadOk insertOk
    convertOk "es" "en" demoArchive demoOut (by decide)
    ⟨"[sound:f688ae26e9cfa3ba6235477831d5122e.mp3]", "Hola", "Hello"⟩ (by decide)

end AnkiAudio

